import Mathlib

/-!
Shallow embedding of the "too good to go" marketplace backend
(`models.py`, `schemas.py`, `services.py`, `main.py`).

The persistent store is modelled as an explicit `DB` value holding the five
relations as lists.  SQLAlchemy's `query(...).filter(...).first()` becomes
`List.find?`; mutating the ORM object returned by `first()` becomes
`modifyFirst` (rewrite the first matching row, keep the rest); `db.delete`
becomes `List.eraseP`.  `raise HTTPException` becomes `Except.error` carrying
the status code and detail string; since the session never commits on these
paths, an error leaves the store unchanged.

Non-deterministic inputs of the code are passed as parameters: `uuid.uuid4()`
results become explicit id strings, the pickup-code generator becomes a
stream `gen : Nat → String` of successive candidates, and `datetime.utcnow()`
becomes an integer timestamp `now`.  Prices (`Numeric(10,2)` / pydantic
`float`) are modelled as rationals, datetimes as integers, and Python `int`
columns as `Int`.

The unbounded `while` loop that retries pickup-code generation on collision
is modelled with explicit fuel: `create_order` returns `none` when the loop
has not terminated within `fuel` iterations, so nontermination of the source
loop is visible as `none` for every fuel value.
-/

namespace TGTG

inductive UserRole where
  | customer
  | business_owner
deriving DecidableEq, Repr

inductive OrderStatus where
  | pending
  | confirmed
  | cancelled
  | completed
deriving DecidableEq, Repr

inductive NotificationType where
  | order_confirmation
  | pickup_reminder
  | new_bag
  | order_update
deriving DecidableEq, Repr

inductive RelatedEntityType where
  | order
  | bag
deriving DecidableEq, Repr

/-- Row of the `users` table (claim-relevant columns). -/
structure User where
  id : Nat
  email : String
  name : String
  is_active : Bool
  role : UserRole
deriving DecidableEq, Repr

/-- Row of the `business_owners` table (claim-relevant columns). -/
structure BusinessOwner where
  owner_id : Nat
  business_name : String
  is_verified : Bool
deriving DecidableEq, Repr

/-- Row of the `surprise_bags` table (claim-relevant columns). -/
structure SurpriseBag where
  id : Nat
  business_id : Nat
  title : String
  description : String
  original_price : Rat
  discount_price : Rat
  quantity_available : Int
  quantity_sold : Int
  pickup_start : Int
  pickup_end : Int
  is_active : Bool
deriving DecidableEq, Repr

/-- Row of the `orders` table (claim-relevant columns).  `customer_id` is
only ever written with the id of the ordering customer (user deletion is a
soft-deactivation, so the `SET NULL` path never fires). -/
structure Order where
  order_id : String
  customer_id : Nat
  bag_id : Nat
  total_price : Rat
  status : OrderStatus
  created_at : Int
  updated_at : Int
  pickup_code : String
deriving DecidableEq, Repr

/-- Row of the `notifications` table. -/
structure Notification where
  notification_id : String
  user_id : Nat
  type : NotificationType
  title : String
  message : String
  is_read : Bool
  related_entity_type : RelatedEntityType
  related_entity_id : String
deriving DecidableEq, Repr

/-- The whole persistent store. -/
structure DB where
  users : List User
  business_owners : List BusinessOwner
  bags : List SurpriseBag
  orders : List Order
  notifications : List Notification
deriving DecidableEq, Repr

/-- `raise HTTPException(status_code=..., detail=...)`. -/
structure HTTPError where
  status_code : Nat
  detail : String
deriving DecidableEq, Repr

/-- Pydantic request body `SurpriseBagCreate` (claim-relevant fields). -/
structure SurpriseBagCreate where
  title : String
  description : String
  original_price : Rat
  discount_price : Rat
  quantity_available : Int
  pickup_start : Int
  pickup_end : Int
deriving DecidableEq, Repr

/-- The pydantic field validators on `SurpriseBagCreate`:
`original_price : gt=0`, `discount_price : gt=0`, `quantity_available : ge=0`.
Requests reaching the service layer satisfy this. -/
def SurpriseBagCreate.Validated (b : SurpriseBagCreate) : Prop :=
  0 < b.original_price ∧ 0 < b.discount_price ∧ 0 ≤ b.quantity_available

instance (b : SurpriseBagCreate) : Decidable b.Validated := by
  unfold SurpriseBagCreate.Validated; infer_instance

/-- Pydantic request body `OrderCreate`. -/
structure OrderCreate where
  bag_id : Nat
  total_price : Rat
deriving DecidableEq, Repr

/-- Rewrite the first list element satisfying `p` with `f`, keeping the rest:
the effect of mutating the ORM object returned by `.filter(...).first()`. -/
def modifyFirst (p : α → Bool) (f : α → α) : List α → List α
  | [] => []
  | a :: l => if p a then f a :: l else a :: modifyFirst p f l

/-- `db.query(SurpriseBag).filter(SurpriseBag.id == bag_id).first()`. -/
def get_surprise_bag (db : DB) (bag_id : Nat) : Option SurpriseBag :=
  db.bags.find? (fun b => b.id == bag_id)

/-- `db.query(Order).filter(Order.order_id == order_id).first()`. -/
def get_order (db : DB) (order_id : String) : Option Order :=
  db.orders.find? (fun o => o.order_id == order_id)

/-- `db.query(BusinessOwner).filter(BusinessOwner.owner_id == user_id).first()`. -/
def get_business_owner (db : DB) (user_id : Nat) : Option BusinessOwner :=
  db.business_owners.find? (fun b => b.owner_id == user_id)

/-- The pickup-code generation loop of `create_order`:
`pickup_code = str(uuid.uuid4())[:8]` followed by
`while db.query(Order).filter(Order.pickup_code == pickup_code).first():`
regenerate.  `gen i` is the candidate produced by the `i`-th call of the
generator; the loop returns the first candidate not in `used`.  The source
loop has no bound, so we index by fuel: `none` means the loop is still
running after `fuel` iterations. -/
def findFreshCode (gen : Nat → String) (used : List String) : Nat → Nat → Option String
  | _, 0 => none
  | i, fuel + 1 =>
    if used.contains (gen i) then findFreshCode gen used (i + 1) fuel
    else some (gen i)

/-- Message of the `order_confirmation` notification in `create_order`. -/
def orderConfirmationMessage (bagTitle pickup_code : String) : String :=
  "Your order for \x27" ++ bagTitle ++ "\x27 has been placed. Pickup code: " ++ pickup_code

/-- `services.create_order`.  `new_order_id` and `new_notification_id` stand
for the two `uuid.uuid4()` draws, `gen`/`fuel` drive the pickup-code loop
(see `findFreshCode`), `now` is the row timestamp.  Outer `none` =
the pickup-code loop did not terminate within `fuel` iterations. -/
def create_order (db : DB) (order : OrderCreate) (customer_id : Nat)
    (gen : Nat → String) (fuel : Nat) (new_order_id new_notification_id : String)
    (now : Int) : Option (Except HTTPError (DB × Order)) :=
  match get_surprise_bag db order.bag_id with
  | none => some (Except.error ⟨404, "Surprise bag not found or not available"⟩)
  | some db_bag =>
    if !db_bag.is_active then
      some (Except.error ⟨404, "Surprise bag not found or not available"⟩)
    else if db_bag.quantity_available ≤ db_bag.quantity_sold then
      some (Except.error ⟨400, "Surprise bag is sold out"⟩)
    else
      match findFreshCode gen (db.orders.map Order.pickup_code) 0 fuel with
      | none => none
      | some pickup_code =>
        let db_order : Order := {
          order_id := new_order_id
          customer_id := customer_id
          bag_id := order.bag_id
          total_price := order.total_price
          status := OrderStatus.pending
          created_at := now
          updated_at := now
          pickup_code := pickup_code }
        let notification : Notification := {
          notification_id := new_notification_id
          user_id := customer_id
          type := NotificationType.order_confirmation
          title := "Order Confirmed!"
          message := orderConfirmationMessage db_bag.title pickup_code
          is_read := false
          related_entity_type := RelatedEntityType.order
          related_entity_id := new_order_id }
        some (Except.ok ({ db with
          bags := modifyFirst (fun b => b.id == order.bag_id)
            (fun b => { b with quantity_sold := b.quantity_sold + 1 }) db.bags
          orders := db.orders ++ [db_order]
          notifications := db.notifications ++ [notification] }, db_order))

/-- String value of an `OrderStatus` (the `str`-mixin enum value). -/
def OrderStatus.str : OrderStatus → String
  | .pending => "pending"
  | .confirmed => "confirmed"
  | .cancelled => "cancelled"
  | .completed => "completed"

/-- `services.update_order_status`. -/
def update_order_status (db : DB) (order_id : String) (customer_id : Nat)
    (status : OrderStatus) (new_notification_id : String) (now : Int) :
    Except HTTPError (DB × Order) :=
  match db.orders.find? (fun o => o.order_id == order_id && o.customer_id == customer_id) with
  | none => Except.error ⟨404, "Order not found or not authorized"⟩
  | some db_order =>
    let notification : Notification := {
      notification_id := new_notification_id
      user_id := customer_id
      type := NotificationType.order_update
      title := "Order Status Updated"
      message := "Your order status has been updated to \x27" ++ status.str ++ "\x27."
      is_read := false
      related_entity_type := RelatedEntityType.order
      related_entity_id := order_id }
    Except.ok ({ db with
      orders := modifyFirst
        (fun o => o.order_id == order_id && o.customer_id == customer_id)
        (fun o => { o with status := status, updated_at := now }) db.orders
      notifications := db.notifications ++ [notification] },
      { db_order with status := status, updated_at := now })

/-- `services.delete_order` (cancel).  The source guards the bag decrement
with `if db_bag:`; `modifyFirst` is the identity when no bag matches, which
is the same effect. -/
def delete_order (db : DB) (order_id : String) (customer_id : Nat)
    (new_notification_id : String) (now : Int) : Except HTTPError DB :=
  match db.orders.find? (fun o => o.order_id == order_id && o.customer_id == customer_id) with
  | none => Except.error ⟨404, "Order not found or not authorized"⟩
  | some db_order =>
    if db_order.status ≠ OrderStatus.pending then
      Except.error ⟨400, "Can only delete pending orders"⟩
    else
      Except.ok { db with
        bags := modifyFirst (fun b => b.id == db_order.bag_id)
          (fun b => { b with quantity_sold := b.quantity_sold - 1 }) db.bags
        orders := modifyFirst
          (fun o => o.order_id == order_id && o.customer_id == customer_id)
          (fun o => { o with status := OrderStatus.cancelled, updated_at := now }) db.orders
        notifications := db.notifications ++ [{
          notification_id := new_notification_id
          user_id := customer_id
          type := NotificationType.order_update
          title := "Order Cancelled"
          message := "Your order has been cancelled."
          is_read := false
          related_entity_type := RelatedEntityType.order
          related_entity_id := order_id }] }

/-- Autoincrement of the `surprise_bags` integer primary key. -/
def nextBagId (db : DB) : Nat :=
  (db.bags.map SurpriseBag.id).foldr max 0 + 1

/-- Message of the `new_bag` broadcast notification in `create_surprise_bag`. -/
def newBagMessage (bagTitle businessName : String) : String :=
  "A new surprise bag \x27" ++ bagTitle ++ "\x27 is available at " ++ businessName ++ "!"

/-- `services.create_surprise_bag`.  `notifIds i` stands for the
`uuid.uuid4()` draw of the `i`-th broadcast notification. -/
def create_surprise_bag (db : DB) (bag : SurpriseBagCreate) (business_id : Nat)
    (notifIds : Nat → String) : Except HTTPError (DB × SurpriseBag) :=
  match get_business_owner db business_id with
  | none => Except.error ⟨404, "Business not found"⟩
  | some db_business =>
    if bag.original_price ≤ bag.discount_price then
      Except.error ⟨400, "Discount price must be less than original price"⟩
    else if bag.pickup_end ≤ bag.pickup_start then
      Except.error ⟨400, "Pickup end time must be after pickup start time"⟩
    else
      let db_bag : SurpriseBag := {
        id := nextBagId db
        business_id := business_id
        title := bag.title
        description := bag.description
        original_price := bag.original_price
        discount_price := bag.discount_price
        quantity_available := bag.quantity_available
        quantity_sold := 0
        pickup_start := bag.pickup_start
        pickup_end := bag.pickup_end
        is_active := true }
      let customers := db.users.filter (fun u => u.role == UserRole.customer)
      let notifs := customers.enum.map (fun ic => ({
        notification_id := notifIds ic.1
        user_id := ic.2.id
        type := NotificationType.new_bag
        title := "New Surprise Bag Available!"
        message := newBagMessage db_bag.title db_business.business_name
        is_read := false
        related_entity_type := RelatedEntityType.bag
        related_entity_id := toString db_bag.id } : Notification))
      Except.ok ({ db with
        bags := db.bags ++ [db_bag]
        notifications := db.notifications ++ notifs }, db_bag)

/-- The `setattr` loop of `update_surprise_bag`: every field of the request
body is copied onto the row (no field of `SurpriseBagCreate` is optional, so
`exclude_unset` passes them all); `quantity_sold`, `is_active` and the ids
are not request fields and are untouched. -/
def applyBagUpdate (bag_update : SurpriseBagCreate) (b : SurpriseBag) : SurpriseBag :=
  { b with
    title := bag_update.title
    description := bag_update.description
    original_price := bag_update.original_price
    discount_price := bag_update.discount_price
    quantity_available := bag_update.quantity_available
    pickup_start := bag_update.pickup_start
    pickup_end := bag_update.pickup_end }

/-- `services.update_surprise_bag`. -/
def update_surprise_bag (db : DB) (bag_id : Nat) (business_id : Nat)
    (bag_update : SurpriseBagCreate) : Except HTTPError (DB × SurpriseBag) :=
  match db.bags.find? (fun b => b.id == bag_id && b.business_id == business_id) with
  | none => Except.error ⟨404, "Surprise bag not found or not authorized"⟩
  | some db_bag =>
    Except.ok ({ db with
      bags := modifyFirst (fun b => b.id == bag_id && b.business_id == business_id)
        (applyBagUpdate bag_update) db.bags }, applyBagUpdate bag_update db_bag)

/-- `services.delete_surprise_bag` (soft delete). -/
def delete_surprise_bag (db : DB) (bag_id : Nat) (business_id : Nat) :
    Except HTTPError DB :=
  match db.bags.find? (fun b => b.id == bag_id && b.business_id == business_id) with
  | none => Except.error ⟨404, "Surprise bag not found or not authorized"⟩
  | some _ =>
    let active_orders := (db.orders.filter (fun o => o.bag_id == bag_id &&
      (o.status == OrderStatus.pending || o.status == OrderStatus.confirmed))).length
    if active_orders > 0 then
      Except.error ⟨400, "Cannot delete surprise bag with active orders"⟩
    else
      Except.ok { db with
        bags := modifyFirst (fun b => b.id == bag_id && b.business_id == business_id)
          (fun b => { b with is_active := false }) db.bags }

/-- `main.read_order` (the `GET /orders/{order_id}` endpoint body). -/
def read_order (db : DB) (order_id : String) (current_user_id : Nat) :
    Except HTTPError Order :=
  match get_order db order_id with
  | none => Except.error ⟨404, "Order not found or not authorized"⟩
  | some db_order =>
    if db_order.customer_id ≠ current_user_id then
      Except.error ⟨404, "Order not found or not authorized"⟩
    else
      Except.ok db_order

/-- `services.mark_notification_as_read`. -/
def mark_notification_as_read (db : DB) (notification_id : String) (user_id : Nat) :
    Except HTTPError DB :=
  match db.notifications.find?
      (fun n => n.notification_id == notification_id && n.user_id == user_id) with
  | none => Except.error ⟨404, "Notification not found or not authorized"⟩
  | some _ =>
    Except.ok { db with
      notifications := modifyFirst
        (fun n => n.notification_id == notification_id && n.user_id == user_id)
        (fun n => { n with is_read := true }) db.notifications }

/-- `services.delete_notification` (the one hard delete in the service layer). -/
def delete_notification (db : DB) (notification_id : String) (user_id : Nat) :
    Except HTTPError DB :=
  match db.notifications.find?
      (fun n => n.notification_id == notification_id && n.user_id == user_id) with
  | none => Except.error ⟨404, "Notification not found or not authorized"⟩
  | some _ =>
    Except.ok { db with
      notifications := db.notifications.eraseP
        (fun n => n.notification_id == notification_id && n.user_id == user_id) }

/-- The state-mutating workflow operations, for sequence claims.  Each
constructor packages one service call together with its nondeterministic
inputs (uuid draws, generator stream, timestamp). -/
inductive Op where
  | placeOrder (req : OrderCreate) (customer_id : Nat) (gen : Nat → String)
      (fuel : Nat) (new_order_id new_notification_id : String) (now : Int)
  | cancelOrder (order_id : String) (customer_id : Nat)
      (new_notification_id : String) (now : Int)
  | updateStatus (order_id : String) (customer_id : Nat) (status : OrderStatus)
      (new_notification_id : String) (now : Int)
  | createBag (bag : SurpriseBagCreate) (business_id : Nat) (notifIds : Nat → String)
  | updateBag (bag_id business_id : Nat) (bag_update : SurpriseBagCreate)
  | deleteBag (bag_id business_id : Nat)

/-- Run one operation on the store.  A raised `HTTPException` aborts the
request before any mutation is committed, so the error case keeps `db`;
the nonterminating pickup-code loop (`none`) likewise produces no new state. -/
def applyOp (db : DB) : Op → DB
  | .placeOrder req cid gen fuel oid nid now =>
    match create_order db req cid gen fuel oid nid now with
    | some (Except.ok (db2, _)) => db2
    | _ => db
  | .cancelOrder oid cid nid now =>
    match delete_order db oid cid nid now with
    | Except.ok db2 => db2
    | Except.error _ => db
  | .updateStatus oid cid status nid now =>
    match update_order_status db oid cid status nid now with
    | Except.ok (db2, _) => db2
    | Except.error _ => db
  | .createBag bag bid notifIds =>
    match create_surprise_bag db bag bid notifIds with
    | Except.ok (db2, _) => db2
    | Except.error _ => db
  | .updateBag bag_id bid upd =>
    match update_surprise_bag db bag_id bid upd with
    | Except.ok (db2, _) => db2
    | Except.error _ => db
  | .deleteBag bag_id bid =>
    match delete_surprise_bag db bag_id bid with
    | Except.ok db2 => db2
    | Except.error _ => db

/-! ### Generic lemmas about the row-mutation combinators -/

theorem modifyFirst_of_find?_eq_none {p : α → Bool} (f : α → α) {l : List α}
    (h : l.find? p = none) : modifyFirst p f l = l := by
  induction l with
  | nil => rfl
  | cons b t ih =>
    by_cases hb : p b
    · rw [List.find?_cons_of_pos _ hb] at h; exact absurd h (by simp)
    · rw [List.find?_cons_of_neg _ hb] at h
      simp [modifyFirst, hb, ih h]

theorem modifyFirst_decomp {p : α → Bool} (f : α → α) {l : List α} {a : α}
    (h : l.find? p = some a) :
    ∃ l₁ l₂, l = l₁ ++ a :: l₂ ∧ (∀ x ∈ l₁, p x = false) ∧
      modifyFirst p f l = l₁ ++ f a :: l₂ := by
  induction l with
  | nil => simp [List.find?] at h
  | cons b t ih =>
    by_cases hb : p b
    · rw [List.find?_cons_of_pos _ hb] at h
      obtain rfl : b = a := by injection h
      exact ⟨[], t, rfl, by simp, by simp [modifyFirst, hb]⟩
    · rw [List.find?_cons_of_neg _ hb] at h
      obtain ⟨l₁, l₂, hl, hl₁, hm⟩ := ih h
      refine ⟨b :: l₁, l₂, by rw [hl]; rfl, ?_, ?_⟩
      · intro x hx
        rcases List.mem_cons.mp hx with rfl | hx
        · exact Bool.eq_false_iff.mpr hb
        · exact hl₁ x hx
      · simp [modifyFirst, hb, hm]

theorem find?_append_cons_pos {p : α → Bool} {l₁ : List α} {a : α} (l₂ : List α)
    (h₁ : ∀ x ∈ l₁, p x = false) (ha : p a = true) :
    (l₁ ++ a :: l₂).find? p = some a := by
  induction l₁ with
  | nil => simpa using List.find?_cons_of_pos l₂ ha
  | cons b t ih =>
    have hb : p b = false := h₁ b (List.mem_cons_self b t)
    rw [List.cons_append, List.find?_cons_of_neg _ (by simp [hb])]
    exact ih (fun x hx => h₁ x (List.mem_cons_of_mem b hx))

theorem map_modifyFirst_of_preserve (p : α → Bool) (f : α → α) (g : α → β)
    (hg : ∀ a, g (f a) = g a) (l : List α) :
    (modifyFirst p f l).map g = l.map g := by
  induction l with
  | nil => rfl
  | cons b t ih => by_cases hb : p b <;> simp [modifyFirst, hb, hg, ih]

theorem findFreshCode_spec {gen : Nat → String} {used : List String} :
    ∀ {i fuel : Nat} {c : String}, findFreshCode gen used i fuel = some c →
      c ∉ used := by
  intro i fuel
  induction fuel generalizing i with
  | zero => intro c h; simp [findFreshCode] at h
  | succ n ih =>
    intro c h
    by_cases hc : used.contains (gen i)
    · rw [findFreshCode, if_pos hc] at h
      exact ih h
    · rw [findFreshCode, if_neg hc] at h
      obtain rfl : gen i = c := by injection h
      simpa using hc

/-! ### C10: listing update performs no business-rule validation -/

/-- A listing owned by business 5 used to exercise `update_surprise_bag`. -/
def bagC10 : SurpriseBag := {
  id := 1
  business_id := 5
  title := "Bag"
  description := "d"
  original_price := 10
  discount_price := 5
  quantity_available := 3
  quantity_sold := 2
  pickup_start := 0
  pickup_end := 10
  is_active := true }

def dbC10 : DB := {
  users := []
  business_owners := [⟨5, "Shop", true⟩]
  bags := [bagC10]
  orders := []
  notifications := [] }

/-- A pydantic-valid update request that violates every business rule the
create path enforces: discount above original price, pickup window reversed,
and quantity below the already-sold count. -/
def updC10 : SurpriseBagCreate := {
  title := "Bag"
  description := "d"
  original_price := 4
  discount_price := 6
  quantity_available := 1
  pickup_start := 10
  pickup_end := 3 }

/-- C10: `update_surprise_bag` accepts and persists an update with
`discount_price ≥ original_price`, `pickup_end ≤ pickup_start`, and
`quantity_available` below the listing's current `quantity_sold`, even
though the request passes pydantic field validation. -/
theorem update_surprise_bag_no_validation :
    ∃ db2 bag2, update_surprise_bag dbC10 1 5 updC10 = Except.ok (db2, bag2) ∧
      updC10.Validated ∧
      bag2 ∈ db2.bags ∧
      bag2.original_price ≤ bag2.discount_price ∧
      bag2.pickup_end ≤ bag2.pickup_start ∧
      bag2.quantity_available < bag2.quantity_sold :=
  ⟨_, _, rfl, by decide, by decide, by decide, by decide, by decide⟩

/-! ### C9: listing-creation validation errors leave the store unchanged -/

/-- C9: with the creating business present, `create_surprise_bag` rejects
`discount_price ≥ original_price` with a 400 validation error, and rejects
`pickup_end ≤ pickup_start` with a 400 validation error; in both cases the
store is unchanged (no listing row, no notification rows). -/
theorem create_surprise_bag_validation (db : DB) (bag : SurpriseBagCreate)
    (business_id : Nat) (notifIds : Nat → String) (bo : BusinessOwner)
    (hbo : get_business_owner db business_id = some bo) :
    (bag.original_price ≤ bag.discount_price →
      create_surprise_bag db bag business_id notifIds =
        Except.error ⟨400, "Discount price must be less than original price"⟩ ∧
      applyOp db (Op.createBag bag business_id notifIds) = db) ∧
    (bag.pickup_end ≤ bag.pickup_start →
      ∃ d, create_surprise_bag db bag business_id notifIds =
          Except.error ⟨400, d⟩ ∧
        applyOp db (Op.createBag bag business_id notifIds) = db) := by
  constructor
  · intro hp
    have h : create_surprise_bag db bag business_id notifIds =
        Except.error ⟨400, "Discount price must be less than original price"⟩ := by
      unfold create_surprise_bag
      rw [hbo]
      simp [hp]
    exact ⟨h, by simp [applyOp, h]⟩
  · intro ht
    by_cases hp : bag.original_price ≤ bag.discount_price
    · have h : create_surprise_bag db bag business_id notifIds =
          Except.error ⟨400, "Discount price must be less than original price"⟩ := by
        unfold create_surprise_bag
        rw [hbo]
        simp [hp]
      exact ⟨_, h, by simp [applyOp, h]⟩
    · have h : create_surprise_bag db bag business_id notifIds =
          Except.error ⟨400, "Pickup end time must be after pickup start time"⟩ := by
        unfold create_surprise_bag
        rw [hbo]
        simp [hp, ht]
      exact ⟨_, h, by simp [applyOp, h]⟩

def boW : BusinessOwner := ⟨5, "Shop", true⟩

def dbW9 : DB := {
  users := []
  business_owners := [boW]
  bags := []
  orders := []
  notifications := [] }

def badBagW9 : SurpriseBagCreate := {
  title := "t"
  description := "d"
  original_price := 5
  discount_price := 7
  pickup_start := 8
  pickup_end := 2
  quantity_available := 1 }

/-- Concrete instance of `create_surprise_bag_validation`. -/
theorem create_surprise_bag_validation_witness :
    (create_surprise_bag dbW9 badBagW9 5 (fun _ => "n") =
        Except.error ⟨400, "Discount price must be less than original price"⟩ ∧
      applyOp dbW9 (Op.createBag badBagW9 5 (fun _ => "n")) = dbW9) ∧
    (∃ d, create_surprise_bag dbW9 badBagW9 5 (fun _ => "n") =
        Except.error ⟨400, d⟩ ∧
      applyOp dbW9 (Op.createBag badBagW9 5 (fun _ => "n")) = dbW9) :=
  ⟨(create_surprise_bag_validation dbW9 badBagW9 5 (fun _ => "n") boW (by decide)).1
      (by decide),
    (create_surprise_bag_validation dbW9 badBagW9 5 (fun _ => "n") boW (by decide)).2
      (by decide)⟩

/-! ### C8: ownership is conflated with existence -/

/-- C8: `read_order` returns the order exactly when its `customer_id` is the
caller's id, and otherwise (missing order or non-owner alike) reports the one
404 error; `mark_notification_as_read` and `delete_notification` succeed
exactly when a notification with that id belongs to the caller, and otherwise
(missing or non-owned alike) report the one 404 error. -/
theorem ownership_conflated_with_existence (db : DB) (order_id nid : String)
    (caller : Nat) :
    (∀ o, read_order db order_id caller = Except.ok o ↔
        (get_order db order_id = some o ∧ o.customer_id = caller)) ∧
    ((∀ o, get_order db order_id = some o → o.customer_id ≠ caller) →
      read_order db order_id caller =
        Except.error ⟨404, "Order not found or not authorized"⟩) ∧
    ((∃ db2, mark_notification_as_read db nid caller = Except.ok db2) ↔
      ∃ n ∈ db.notifications, n.notification_id = nid ∧ n.user_id = caller) ∧
    ((∃ db2, delete_notification db nid caller = Except.ok db2) ↔
      ∃ n ∈ db.notifications, n.notification_id = nid ∧ n.user_id = caller) ∧
    ((∀ n ∈ db.notifications, ¬(n.notification_id = nid ∧ n.user_id = caller)) →
      mark_notification_as_read db nid caller =
        Except.error ⟨404, "Notification not found or not authorized"⟩ ∧
      delete_notification db nid caller =
        Except.error ⟨404, "Notification not found or not authorized"⟩) := by
  have hfind : ∀ l : List Notification,
      l.find? (fun n => n.notification_id == nid && n.user_id == caller) = none ↔
      ∀ n ∈ l, ¬(n.notification_id = nid ∧ n.user_id = caller) := by
    intro l
    rw [List.find?_eq_none]
    constructor
    · intro h n hn hc
      exact h n hn (by simp [hc.1, hc.2])
    · intro h n hn hb
      exact h n hn (by simpa using hb)
  refine ⟨?_, ?_, ?_, ?_, ?_⟩
  · intro o
    cases hg : get_order db order_id with
    | none => simp [read_order, hg]
    | some o2 =>
      simp only [read_order, hg]
      by_cases hc : o2.customer_id = caller
      · rw [if_neg (not_not_intro hc)]
        constructor
        · intro h
          injection h with h
          exact ⟨by rw [h], by rw [← h]; exact hc⟩
        · intro ⟨h1, _⟩
          injection h1 with h1
          rw [h1]
      · rw [if_pos hc]
        constructor
        · intro h; exact absurd h (by simp)
        · intro ⟨h1, h2⟩
          injection h1 with h1
          exact absurd (h1 ▸ h2) hc
  · intro h
    cases hg : get_order db order_id with
    | none => simp [read_order, hg]
    | some o2 =>
      simp only [read_order, hg]
      rw [if_pos (h o2 hg)]
  · unfold mark_notification_as_read
    cases hf : db.notifications.find?
        (fun n => n.notification_id == nid && n.user_id == caller) with
    | none =>
      simp only []
      constructor
      · intro ⟨db2, h⟩; exact absurd h (by simp)
      · intro ⟨n, hn, h1, h2⟩
        exact absurd ((hfind db.notifications).mp hf n hn) (by simp [h1, h2])
    | some n =>
      constructor
      · intro _
        refine ⟨n, List.mem_of_find?_eq_some hf, ?_⟩
        have := List.find?_some hf
        simpa using this
      · intro _; exact ⟨_, rfl⟩
  · unfold delete_notification
    cases hf : db.notifications.find?
        (fun n => n.notification_id == nid && n.user_id == caller) with
    | none =>
      constructor
      · intro ⟨db2, h⟩; exact absurd h (by simp)
      · intro ⟨n, hn, h1, h2⟩
        exact absurd ((hfind db.notifications).mp hf n hn) (by simp [h1, h2])
    | some n =>
      constructor
      · intro _
        refine ⟨n, List.mem_of_find?_eq_some hf, ?_⟩
        have := List.find?_some hf
        simpa using this
      · intro _; exact ⟨_, rfl⟩
  · intro h
    have hf : db.notifications.find?
        (fun n => n.notification_id == nid && n.user_id == caller) = none :=
      (hfind db.notifications).mpr h
    constructor
    · unfold mark_notification_as_read; rw [hf]
    · unfold delete_notification; rw [hf]

def dbW8 : DB := {
  users := []
  business_owners := []
  bags := []
  orders := [{
    order_id := "o1"
    customer_id := 1
    bag_id := 1
    total_price := 5
    status := OrderStatus.pending
    created_at := 0
    updated_at := 0
    pickup_code := "c1" }]
  notifications := [{
    notification_id := "n1"
    user_id := 1
    type := NotificationType.order_update
    title := "t"
    message := "m"
    is_read := false
    related_entity_type := RelatedEntityType.order
    related_entity_id := "o1" }] }

/-- Concrete instance of `ownership_conflated_with_existence`: caller 2 owns
neither the order nor the notification and receives the merged 404s. -/
theorem ownership_conflated_with_existence_witness :
    read_order dbW8 "o1" 2 =
      Except.error ⟨404, "Order not found or not authorized"⟩ ∧
    mark_notification_as_read dbW8 "n1" 2 =
      Except.error ⟨404, "Notification not found or not authorized"⟩ ∧
    delete_notification dbW8 "n1" 2 =
      Except.error ⟨404, "Notification not found or not authorized"⟩ :=
  ⟨(ownership_conflated_with_existence dbW8 "o1" "n1" 2).2.1 (by decide),
    ((ownership_conflated_with_existence dbW8 "o1" "n1" 2).2.2.2.2 (by decide)).1,
    ((ownership_conflated_with_existence dbW8 "o1" "n1" 2).2.2.2.2 (by decide)).2⟩

/-! ### C7: status update accepts any transition for the owner -/

/-- Lookup predicate of `update_order_status` / `delete_order`. -/
def orderOwnedBy (order_id : String) (customer_id : Nat) (o : Order) : Bool :=
  o.order_id == order_id && o.customer_id == customer_id

/-- C7: for an order owned by the caller, `update_order_status` accepts every
target status (no state-machine restriction, including transitions out of
`cancelled` or `completed`), persists the new status together with a fresh
`updated_at`, and appends one `order_update` notification to the customer;
when no order with that id belongs to the caller it fails with 404. -/
theorem update_order_status_contract (db : DB) (order_id : String)
    (customer_id : Nat) (status : OrderStatus) (nid : String) (now : Int) :
    (db.orders.find? (orderOwnedBy order_id customer_id) = none →
      update_order_status db order_id customer_id status nid now =
        Except.error ⟨404, "Order not found or not authorized"⟩) ∧
    (∀ o, db.orders.find? (orderOwnedBy order_id customer_id) = some o →
      ∃ db2, update_order_status db order_id customer_id status nid now =
          Except.ok (db2, { o with status := status, updated_at := now }) ∧
        db2.orders.find? (orderOwnedBy order_id customer_id) =
          some { o with status := status, updated_at := now } ∧
        ∃ n, db2.notifications = db.notifications ++ [n] ∧
          n.type = NotificationType.order_update ∧ n.user_id = customer_id) := by
  constructor
  · intro h
    unfold update_order_status
    rw [show (fun o => o.order_id == order_id && o.customer_id == customer_id) =
      orderOwnedBy order_id customer_id from rfl, h]
  · intro o h
    have hp : orderOwnedBy order_id customer_id o = true := List.find?_some h
    obtain ⟨l₁, l₂, hl, hl₁, hm⟩ := modifyFirst_decomp
      (fun o2 => { o2 with status := status, updated_at := now }) h
    refine ⟨{ db with
        orders := modifyFirst (orderOwnedBy order_id customer_id)
          (fun o2 => { o2 with status := status, updated_at := now }) db.orders
        notifications := db.notifications ++ [{
          notification_id := nid
          user_id := customer_id
          type := NotificationType.order_update
          title := "Order Status Updated"
          message := "Your order status has been updated to \x27" ++ status.str ++ "\x27."
          is_read := false
          related_entity_type := RelatedEntityType.order
          related_entity_id := order_id }] }, ?_, ?_, ?_⟩
    · unfold update_order_status
      rw [show (fun o => o.order_id == order_id && o.customer_id == customer_id) =
        orderOwnedBy order_id customer_id from rfl, h]
    · show (modifyFirst (orderOwnedBy order_id customer_id) _ db.orders).find? _ = _
      rw [hm]
      exact find?_append_cons_pos l₂ hl₁ (by simpa [orderOwnedBy] using hp)
    · exact ⟨_, rfl, rfl, rfl⟩

def dbW7 : DB := {
  users := []
  business_owners := []
  bags := []
  orders := [{
    order_id := "o1"
    customer_id := 3
    bag_id := 1
    total_price := 5
    status := OrderStatus.completed
    created_at := 0
    updated_at := 0
    pickup_code := "c1" }]
  notifications := [] }

/-- Concrete instance of `update_order_status_contract`: the owner moves a
`completed` order back to `pending` and the transition is accepted. -/
theorem update_order_status_contract_witness :
    ∃ db2, update_order_status dbW7 "o1" 3 OrderStatus.pending "n1" 9 =
        Except.ok (db2, { (dbW7.orders.get ⟨0, by decide⟩) with
          status := OrderStatus.pending, updated_at := 9 }) ∧
      db2.orders.find? (orderOwnedBy "o1" 3) =
        some { (dbW7.orders.get ⟨0, by decide⟩) with
          status := OrderStatus.pending, updated_at := 9 } ∧
      ∃ n, db2.notifications = dbW7.notifications ++ [n] ∧
        n.type = NotificationType.order_update ∧ n.user_id = 3 :=
  (update_order_status_contract dbW7 "o1" 3 OrderStatus.pending "n1" 9).2
    (dbW7.orders.get ⟨0, by decide⟩) (by decide)

/-! ### C1: the placeOrder contract -/

/-- C1: `create_order` fails with 404 when the listing is missing or
inactive, fails with the sold-out 400 when `quantity_sold ≥
quantity_available`, and otherwise (when the pickup-code loop terminates,
yielding `code`) increments the listing's `quantity_sold` by exactly 1,
appends an order in status `pending` whose `total_price` is the
caller-declared price, and appends exactly one `order_confirmation`
notification to the ordering customer whose message contains the order's
pickup code. -/
theorem create_order_contract (db : DB) (req : OrderCreate) (cid : Nat)
    (gen : Nat → String) (fuel : Nat) (oid nid : String) (now : Int) :
    ((∀ b, get_surprise_bag db req.bag_id = some b → b.is_active = false) →
      create_order db req cid gen fuel oid nid now =
        some (Except.error ⟨404, "Surprise bag not found or not available"⟩)) ∧
    (∀ b, get_surprise_bag db req.bag_id = some b → b.is_active = true →
      b.quantity_available ≤ b.quantity_sold →
      create_order db req cid gen fuel oid nid now =
        some (Except.error ⟨400, "Surprise bag is sold out"⟩)) ∧
    (∀ b code, get_surprise_bag db req.bag_id = some b → b.is_active = true →
      b.quantity_sold < b.quantity_available →
      findFreshCode gen (db.orders.map Order.pickup_code) 0 fuel = some code →
      ∃ db2 ord,
        create_order db req cid gen fuel oid nid now =
          some (Except.ok (db2, ord)) ∧
        ord.status = OrderStatus.pending ∧
        ord.total_price = req.total_price ∧
        ord.pickup_code = code ∧
        (∀ b2, get_surprise_bag db2 req.bag_id = some b2 →
          b2.quantity_sold = b.quantity_sold + 1) ∧
        db2.orders = db.orders ++ [ord] ∧
        (∃ n, db2.notifications = db.notifications ++ [n] ∧
          n.type = NotificationType.order_confirmation ∧
          n.user_id = cid ∧
          ∃ pre post, n.message = pre ++ ord.pickup_code ++ post)) := by
  refine ⟨?_, ?_, ?_⟩
  · intro hinact
    cases hg : get_surprise_bag db req.bag_id with
    | none => simp only [create_order, hg]
    | some b =>
      simp only [create_order, hg]
      rw [if_pos (by simp [hinact b hg])]
  · intro b hg hact hsold
    simp only [create_order, hg]
    rw [if_neg (by simp [hact]), if_pos hsold]
  · intro b code hg hact hcap hfresh
    refine ⟨{ db with
        bags := modifyFirst (fun x => x.id == req.bag_id)
          (fun x => { x with quantity_sold := x.quantity_sold + 1 }) db.bags
        orders := db.orders ++ [{
          order_id := oid
          customer_id := cid
          bag_id := req.bag_id
          total_price := req.total_price
          status := OrderStatus.pending
          created_at := now
          updated_at := now
          pickup_code := code }]
        notifications := db.notifications ++ [{
          notification_id := nid
          user_id := cid
          type := NotificationType.order_confirmation
          title := "Order Confirmed!"
          message := orderConfirmationMessage b.title code
          is_read := false
          related_entity_type := RelatedEntityType.order
          related_entity_id := oid }] },
      { order_id := oid
        customer_id := cid
        bag_id := req.bag_id
        total_price := req.total_price
        status := OrderStatus.pending
        created_at := now
        updated_at := now
        pickup_code := code }, ?_, rfl, rfl, rfl, ?_, rfl, ?_⟩
    · simp only [create_order, hg]
      rw [if_neg (by simp [hact]), if_neg (not_le.mpr hcap), hfresh]
    · intro b2 h2
      obtain ⟨l₁, l₂, hl, hl₁, hm⟩ := modifyFirst_decomp
        (fun x => { x with quantity_sold := x.quantity_sold + 1 }) hg
      have hg' : db.bags.find? (fun x => x.id == req.bag_id) = some b := hg
      have hp := List.find?_some hg'
      have hfound : get_surprise_bag { db with
          bags := modifyFirst (fun x => x.id == req.bag_id)
            (fun x => { x with quantity_sold := x.quantity_sold + 1 }) db.bags
          orders := db.orders ++ [{
            order_id := oid
            customer_id := cid
            bag_id := req.bag_id
            total_price := req.total_price
            status := OrderStatus.pending
            created_at := now
            updated_at := now
            pickup_code := code }]
          notifications := db.notifications ++ [{
            notification_id := nid
            user_id := cid
            type := NotificationType.order_confirmation
            title := "Order Confirmed!"
            message := orderConfirmationMessage b.title code
            is_read := false
            related_entity_type := RelatedEntityType.order
            related_entity_id := oid }] } req.bag_id =
          some { b with quantity_sold := b.quantity_sold + 1 } := by
        show (modifyFirst _ _ db.bags).find? _ = _
        rw [hm]
        exact find?_append_cons_pos l₂ hl₁ (by simpa using hp)
      rw [hfound] at h2
      injection h2 with h2
      rw [← h2]
    · refine ⟨_, rfl, rfl, rfl,
        "Your order for \x27" ++ b.title ++ "\x27 has been placed. Pickup code: ",
        "", ?_⟩
      show orderConfirmationMessage b.title code = _
      rw [String.append_empty]
      rfl

def bagW1 : SurpriseBag := {
  id := 1
  business_id := 5
  title := "Bag"
  description := "d"
  original_price := 10
  discount_price := 5
  quantity_available := 2
  quantity_sold := 1
  pickup_start := 0
  pickup_end := 10
  is_active := true }

def dbW1 : DB := {
  users := []
  business_owners := [⟨5, "Shop", true⟩]
  bags := [bagW1]
  orders := []
  notifications := [] }

/-- Concrete instance of the success branch of `create_order_contract`. -/
theorem create_order_contract_witness :
    ∃ db2 ord,
      create_order dbW1 ⟨1, 5⟩ 7 (fun _ => "code1") 1 "o1" "n1" 0 =
        some (Except.ok (db2, ord)) ∧
      ord.status = OrderStatus.pending ∧
      ord.total_price = (⟨1, 5⟩ : OrderCreate).total_price ∧
      ord.pickup_code = "code1" ∧
      (∀ b2, get_surprise_bag db2 1 = some b2 →
        b2.quantity_sold = bagW1.quantity_sold + 1) ∧
      db2.orders = dbW1.orders ++ [ord] ∧
      (∃ n, db2.notifications = dbW1.notifications ++ [n] ∧
        n.type = NotificationType.order_confirmation ∧
        n.user_id = 7 ∧
        ∃ pre post, n.message = pre ++ ord.pickup_code ++ post) :=
  (create_order_contract dbW1 ⟨1, 5⟩ 7 (fun _ => "code1") 1 "o1" "n1" 0).2.2
    bagW1 "code1" (by decide) (by decide) (by decide) (by decide)

theorem find?_modifyFirst_of_pres {p : α → Bool} (f : α → α) {l : List α} {a : α}
    (h : l.find? p = some a) (hf : p (f a) = true) :
    (modifyFirst p f l).find? p = some (f a) := by
  obtain ⟨l₁, l₂, _, hl₁, hm⟩ := modifyFirst_decomp f h
  rw [hm]
  exact find?_append_cons_pos l₂ hl₁ hf

/-! ### C5: cancelOrder contract -/

/-- C5: `delete_order` by the owning customer fails with the 400
invalid-state error on a non-`pending` order, leaving the store untouched
(`applyOp` is the identity); on a `pending` order it decrements the
associated listing's `quantity_sold` by 1, sets the order's status to
`cancelled` with a fresh `updated_at`, and appends one `order_update`
notification to the customer. -/
theorem delete_order_contract (db : DB) (order_id : String) (cid : Nat)
    (nid : String) (now : Int) :
    (∀ o, db.orders.find? (orderOwnedBy order_id cid) = some o →
      o.status ≠ OrderStatus.pending →
      delete_order db order_id cid nid now =
        Except.error ⟨400, "Can only delete pending orders"⟩ ∧
      applyOp db (Op.cancelOrder order_id cid nid now) = db) ∧
    (∀ o b, db.orders.find? (orderOwnedBy order_id cid) = some o →
      o.status = OrderStatus.pending →
      get_surprise_bag db o.bag_id = some b →
      ∃ db2, delete_order db order_id cid nid now = Except.ok db2 ∧
        (∀ b2, get_surprise_bag db2 o.bag_id = some b2 →
          b2.quantity_sold = b.quantity_sold - 1) ∧
        db2.orders.find? (orderOwnedBy order_id cid) =
          some { o with status := OrderStatus.cancelled, updated_at := now } ∧
        ∃ n, db2.notifications = db.notifications ++ [n] ∧
          n.type = NotificationType.order_update ∧ n.user_id = cid) := by
  constructor
  · intro o h hne
    have h' : db.orders.find?
        (fun o2 => o2.order_id == order_id && o2.customer_id == cid) = some o := h
    have heq : delete_order db order_id cid nid now =
        Except.error ⟨400, "Can only delete pending orders"⟩ := by
      simp only [delete_order, h']
      rw [if_pos hne]
    exact ⟨heq, by simp [applyOp, heq]⟩
  · intro o b h hpend hb
    have h' : db.orders.find?
        (fun o2 => o2.order_id == order_id && o2.customer_id == cid) = some o := h
    refine ⟨{ db with
        bags := modifyFirst (fun b2 => b2.id == o.bag_id)
          (fun b2 => { b2 with quantity_sold := b2.quantity_sold - 1 }) db.bags
        orders := modifyFirst
          (fun o2 => o2.order_id == order_id && o2.customer_id == cid)
          (fun o2 => { o2 with status := OrderStatus.cancelled, updated_at := now })
          db.orders
        notifications := db.notifications ++ [{
          notification_id := nid
          user_id := cid
          type := NotificationType.order_update
          title := "Order Cancelled"
          message := "Your order has been cancelled."
          is_read := false
          related_entity_type := RelatedEntityType.order
          related_entity_id := order_id }] }, ?_, ?_, ?_, ?_⟩
    · simp only [delete_order, h']
      rw [if_neg (by simp [hpend])]
    · intro b2 h2
      have hb' : db.bags.find? (fun x => x.id == o.bag_id) = some b := hb
      have hpb := List.find?_some hb'
      have hfound := find?_modifyFirst_of_pres
        (fun b2 => { b2 with quantity_sold := b2.quantity_sold - 1 })
        hb' (by simpa using hpb)
      have h2' : (modifyFirst (fun x => x.id == o.bag_id)
          (fun b2 => { b2 with quantity_sold := b2.quantity_sold - 1 }) db.bags).find?
          (fun x => x.id == o.bag_id) = some b2 := h2
      rw [hfound] at h2'
      injection h2' with h2'
      rw [← h2']
    · have hpo := List.find?_some h'
      exact find?_modifyFirst_of_pres
        (fun o2 => { o2 with status := OrderStatus.cancelled, updated_at := now })
        h' (by simpa using hpo)
    · exact ⟨_, rfl, rfl, rfl⟩

def dbW5 : DB := {
  users := []
  business_owners := [⟨5, "Shop", true⟩]
  bags := [{
    id := 1
    business_id := 5
    title := "Bag"
    description := "d"
    original_price := 10
    discount_price := 5
    quantity_available := 2
    quantity_sold := 2
    pickup_start := 0
    pickup_end := 10
    is_active := true }]
  orders := [{
    order_id := "o1"
    customer_id := 3
    bag_id := 1
    total_price := 5
    status := OrderStatus.completed
    created_at := 0
    updated_at := 0
    pickup_code := "c1" },
    { order_id := "o2"
      customer_id := 3
      bag_id := 1
      total_price := 5
      status := OrderStatus.pending
      created_at := 0
      updated_at := 0
      pickup_code := "c2" }]
  notifications := [] }

/-- Concrete instance of `delete_order_contract`: cancelling the completed
order "o1" fails and changes nothing; cancelling the pending order "o2"
succeeds with the stated effects. -/
theorem delete_order_contract_witness :
    (delete_order dbW5 "o1" 3 "n1" 9 =
        Except.error ⟨400, "Can only delete pending orders"⟩ ∧
      applyOp dbW5 (Op.cancelOrder "o1" 3 "n1" 9) = dbW5) ∧
    (∃ db2, delete_order dbW5 "o2" 3 "n1" 9 = Except.ok db2 ∧
      (∀ b2, get_surprise_bag db2 1 = some b2 → b2.quantity_sold = 2 - 1) ∧
      db2.orders.find? (orderOwnedBy "o2" 3) =
        some { (dbW5.orders.get ⟨1, by decide⟩) with
          status := OrderStatus.cancelled, updated_at := 9 } ∧
      ∃ n, db2.notifications = dbW5.notifications ++ [n] ∧
        n.type = NotificationType.order_update ∧ n.user_id = 3) :=
  ⟨(delete_order_contract dbW5 "o1" 3 "n1" 9).1 (dbW5.orders.get ⟨0, by decide⟩)
      (by decide) (by decide),
    (delete_order_contract dbW5 "o2" 3 "n1" 9).2 (dbW5.orders.get ⟨1, by decide⟩)
      (dbW5.bags.get ⟨0, by decide⟩) (by decide) (by decide) (by decide)⟩

theorem create_order_ok (db : DB) (req : OrderCreate) (cid : Nat)
    (gen : Nat → String) (fuel : Nat) (oid nid : String) (now : Int)
    (b : SurpriseBag) (code : String)
    (hg : get_surprise_bag db req.bag_id = some b) (hact : b.is_active = true)
    (hcap : b.quantity_sold < b.quantity_available)
    (hfresh : findFreshCode gen (db.orders.map Order.pickup_code) 0 fuel = some code) :
    ∃ db2 ord, create_order db req cid gen fuel oid nid now =
      some (Except.ok (db2, ord)) := by
  have hact' : (!b.is_active) = false := by simp [hact]
  have hcap' : (b.quantity_available ≤ b.quantity_sold) = False :=
    eq_false (not_le.mpr hcap)
  simp only [create_order, hg, hact', Bool.false_eq_true, if_false, hcap', hfresh]
  exact ⟨_, _, rfl⟩

/-! ### C6: cancel-then-reorder round trip -/

/-- C6: on a sold-out active listing (`quantity_sold = quantity_available`)
carrying a pending order `o` of customer `cid`, cancelling `o` succeeds and
decreases `quantity_sold` by exactly 1, after which a `create_order` on the
same listing (here by customer `cid2`, with a terminating pickup-code draw)
succeeds. -/
theorem cancel_then_reorder (db : DB) (order_id : String) (cid cid2 : Nat)
    (nid : String) (now : Int) (o : Order) (b : SurpriseBag)
    (gen : Nat → String) (fuel : Nat) (oid2 nid2 : String) (now2 : Int)
    (price2 : Rat) (code : String)
    (h : db.orders.find? (orderOwnedBy order_id cid) = some o)
    (hpend : o.status = OrderStatus.pending)
    (hb : get_surprise_bag db o.bag_id = some b)
    (hact : b.is_active = true)
    (hsold : b.quantity_sold = b.quantity_available)
    (hfresh : findFreshCode gen (db.orders.map Order.pickup_code) 0 fuel = some code) :
    ∃ db2, delete_order db order_id cid nid now = Except.ok db2 ∧
      (∀ b2, get_surprise_bag db2 o.bag_id = some b2 →
        b2.quantity_sold = b.quantity_sold - 1) ∧
      ∃ db3 ord,
        create_order db2 ⟨o.bag_id, price2⟩ cid2 gen fuel oid2 nid2 now2 =
          some (Except.ok (db3, ord)) := by
  have h' : db.orders.find?
      (fun o2 => o2.order_id == order_id && o2.customer_id == cid) = some o := h
  have hb' : db.bags.find? (fun x => x.id == o.bag_id) = some b := hb
  have hpb := List.find?_some hb'
  have hfound := find?_modifyFirst_of_pres
    (fun x => { x with quantity_sold := x.quantity_sold - 1 })
    hb' (by simpa using hpb)
  have hdel : delete_order db order_id cid nid now = Except.ok { db with
      bags := modifyFirst (fun x => x.id == o.bag_id)
        (fun x => { x with quantity_sold := x.quantity_sold - 1 }) db.bags
      orders := modifyFirst
        (fun o2 => o2.order_id == order_id && o2.customer_id == cid)
        (fun o2 => { o2 with status := OrderStatus.cancelled, updated_at := now })
        db.orders
      notifications := db.notifications ++ [{
        notification_id := nid
        user_id := cid
        type := NotificationType.order_update
        title := "Order Cancelled"
        message := "Your order has been cancelled."
        is_read := false
        related_entity_type := RelatedEntityType.order
        related_entity_id := order_id }] } := by
    simp only [delete_order, h']
    rw [if_neg (by simp [hpend])]
  refine ⟨_, hdel, ?_, ?_⟩
  · intro b2 h2
    have h2' : (modifyFirst (fun x => x.id == o.bag_id)
        (fun x => { x with quantity_sold := x.quantity_sold - 1 }) db.bags).find?
        (fun x => x.id == o.bag_id) = some b2 := h2
    rw [hfound] at h2'
    injection h2' with h2'
    rw [← h2']
  · refine create_order_ok _ _ _ _ _ _ _ _
      { b with quantity_sold := b.quantity_sold - 1 } code ?_ ?_ ?_ ?_
    · exact hfound
    · exact hact
    · show b.quantity_sold - 1 < b.quantity_available
      rw [hsold]
      exact sub_lt_self _ one_pos
    · show findFreshCode gen ((modifyFirst
        (fun o2 => o2.order_id == order_id && o2.customer_id == cid)
        (fun o2 => { o2 with status := OrderStatus.cancelled, updated_at := now })
        db.orders).map Order.pickup_code) 0 fuel = some code
      rw [map_modifyFirst_of_preserve
        (fun o2 => o2.order_id == order_id && o2.customer_id == cid)
        (fun o2 => { o2 with status := OrderStatus.cancelled, updated_at := now })
        Order.pickup_code (fun _ => rfl) db.orders]
      exact hfresh

def dbW6 : DB := {
  users := []
  business_owners := [⟨5, "Shop", true⟩]
  bags := [{
    id := 1
    business_id := 5
    title := "Bag"
    description := "d"
    original_price := 10
    discount_price := 5
    quantity_available := 1
    quantity_sold := 1
    pickup_start := 0
    pickup_end := 10
    is_active := true }]
  orders := [{
    order_id := "o1"
    customer_id := 3
    bag_id := 1
    total_price := 5
    status := OrderStatus.pending
    created_at := 0
    updated_at := 0
    pickup_code := "c1" }]
  notifications := [] }

/-- Concrete instance of `cancel_then_reorder` on a sold-out one-unit
listing. -/
theorem cancel_then_reorder_witness :
    ∃ db2, delete_order dbW6 "o1" 3 "n1" 9 = Except.ok db2 ∧
      (∀ b2, get_surprise_bag db2 1 = some b2 → b2.quantity_sold = 1 - 1) ∧
      ∃ db3 ord,
        create_order db2 ⟨1, 5⟩ 4 (fun _ => "c2") 1 "o2" "n2" 10 =
          some (Except.ok (db3, ord)) :=
  cancel_then_reorder dbW6 "o1" 3 4 "n1" 9 (dbW6.orders.get ⟨0, by decide⟩)
    (dbW6.bags.get ⟨0, by decide⟩) (fun _ => "c2") 1 "o2" "n2" 10 5 "c2"
    (by decide) (by decide) (by decide) (by decide) (by decide) (by decide)

/-! ### Inversion lemmas: what each successful operation did to the store -/

theorem create_order_inv {db : DB} {req : OrderCreate} {cid : Nat}
    {gen : Nat → String} {fuel : Nat} {oid nid : String} {now : Int}
    {db2 : DB} {ord : Order}
    (h : create_order db req cid gen fuel oid nid now = some (Except.ok (db2, ord))) :
    db2.bags = modifyFirst (fun x => x.id == req.bag_id)
      (fun x => { x with quantity_sold := x.quantity_sold + 1 }) db.bags ∧
    db2.orders = db.orders ++ [ord] ∧
    db2.users = db.users ∧
    ord.bag_id = req.bag_id ∧
    ord.status = OrderStatus.pending ∧
    ord.pickup_code ∉ db.orders.map Order.pickup_code ∧
    ∃ b, get_surprise_bag db req.bag_id = some b ∧
      b.quantity_sold < b.quantity_available := by
  unfold create_order at h
  split at h
  · exact absurd h (by simp)
  · rename_i b hg
    split at h
    · exact absurd h (by simp)
    · rename_i hact
      split at h
      · exact absurd h (by simp)
      · rename_i hcap
        split at h
        · exact absurd h (by simp)
        · rename_i code hfr
          injection h with h
          injection h with h
          injection h with h1 h2
          subst h1
          subst h2
          exact ⟨rfl, rfl, rfl, rfl, rfl, findFreshCode_spec hfr, b, hg,
            not_le.mp hcap⟩

theorem delete_order_inv {db : DB} {order_id : String} {cid : Nat}
    {nid : String} {now : Int} {db2 : DB}
    (h : delete_order db order_id cid nid now = Except.ok db2) :
    ∃ o, db.orders.find?
        (fun o2 => o2.order_id == order_id && o2.customer_id == cid) = some o ∧
      o.status = OrderStatus.pending ∧
      db2.bags = modifyFirst (fun x => x.id == o.bag_id)
        (fun x => { x with quantity_sold := x.quantity_sold - 1 }) db.bags ∧
      db2.orders = modifyFirst
        (fun o2 => o2.order_id == order_id && o2.customer_id == cid)
        (fun o2 => { o2 with status := OrderStatus.cancelled, updated_at := now })
        db.orders ∧
      db2.users = db.users := by
  unfold delete_order at h
  split at h
  · exact absurd h (by simp)
  · rename_i o hfind
    split at h
    · exact absurd h (by simp)
    · rename_i hpend
      injection h with h
      subst h
      exact ⟨o, hfind, not_not.mp hpend, rfl, rfl, rfl⟩

theorem update_order_status_inv {db : DB} {order_id : String} {cid : Nat}
    {status : OrderStatus} {nid : String} {now : Int} {db2 : DB} {o2 : Order}
    (h : update_order_status db order_id cid status nid now = Except.ok (db2, o2)) :
    db2.bags = db.bags ∧
    db2.orders = modifyFirst
      (fun x => x.order_id == order_id && x.customer_id == cid)
      (fun x => { x with status := status, updated_at := now }) db.orders ∧
    db2.users = db.users := by
  unfold update_order_status at h
  split at h
  · exact absurd h (by simp)
  · injection h with h
    injection h with h1 h2
    subst h1
    exact ⟨rfl, rfl, rfl⟩

theorem create_surprise_bag_inv {db : DB} {bag : SurpriseBagCreate}
    {business_id : Nat} {notifIds : Nat → String} {db2 : DB} {nb : SurpriseBag}
    (h : create_surprise_bag db bag business_id notifIds = Except.ok (db2, nb)) :
    db2.bags = db.bags ++ [nb] ∧
    db2.orders = db.orders ∧
    db2.users = db.users ∧
    nb.id = nextBagId db ∧
    nb.quantity_sold = 0 ∧
    nb.quantity_available = bag.quantity_available := by
  unfold create_surprise_bag at h
  split at h
  · exact absurd h (by simp)
  · rename_i bo hbo
    split at h
    · exact absurd h (by simp)
    · split at h
      · exact absurd h (by simp)
      · injection h with h
        injection h with h1 h2
        subst h1
        subst h2
        exact ⟨rfl, rfl, rfl, rfl, rfl, rfl⟩

theorem update_surprise_bag_inv {db : DB} {bag_id business_id : Nat}
    {upd : SurpriseBagCreate} {db2 : DB} {b2 : SurpriseBag}
    (h : update_surprise_bag db bag_id business_id upd = Except.ok (db2, b2)) :
    db2.bags = modifyFirst (fun b => b.id == bag_id && b.business_id == business_id)
      (applyBagUpdate upd) db.bags ∧
    db2.orders = db.orders ∧
    db2.users = db.users := by
  unfold update_surprise_bag at h
  split at h
  · exact absurd h (by simp)
  · injection h with h
    injection h with h1 h2
    subst h1
    exact ⟨rfl, rfl, rfl⟩

theorem delete_surprise_bag_inv {db : DB} {bag_id business_id : Nat} {db2 : DB}
    (h : delete_surprise_bag db bag_id business_id = Except.ok db2) :
    db2.bags = modifyFirst (fun b => b.id == bag_id && b.business_id == business_id)
      (fun b => { b with is_active := false }) db.bags ∧
    db2.orders = db.orders ∧
    db2.users = db.users := by
  simp only [delete_surprise_bag] at h
  split at h
  · exact absurd h (by simp)
  · split at h
    · exact absurd h (by simp)
    · injection h with h
      subst h
      exact ⟨rfl, rfl, rfl⟩

/-! ### C3: pickup codes stay pairwise distinct -/

theorem pickupCodes_nodup_applyOp (db : DB) (op : Op)
    (h : (db.orders.map Order.pickup_code).Nodup) :
    ((applyOp db op).orders.map Order.pickup_code).Nodup := by
  cases op with
  | placeOrder req cid gen fuel oid nid now =>
    cases hres : create_order db req cid gen fuel oid nid now with
    | none => simpa [applyOp, hres] using h
    | some res =>
      cases res with
      | error e => simpa [applyOp, hres] using h
      | ok pr =>
        obtain ⟨db2, ord⟩ := pr
        have hinv := create_order_inv hres
        simp only [applyOp, hres]
        rw [hinv.2.1, List.map_append]
        refine List.Nodup.append h (List.nodup_singleton _) ?_
        intro x hx hx2
        rw [List.map_singleton, List.mem_singleton] at hx2
        subst hx2
        exact hinv.2.2.2.2.2.1 hx
  | cancelOrder oid cid nid now =>
    cases hres : delete_order db oid cid nid now with
    | error e => simpa [applyOp, hres] using h
    | ok db2 =>
      obtain ⟨o, _, _, _, hord, _⟩ := delete_order_inv hres
      simp only [applyOp, hres]
      rw [hord, map_modifyFirst_of_preserve
        (fun o2 => o2.order_id == oid && o2.customer_id == cid)
        (fun o2 => { o2 with status := OrderStatus.cancelled, updated_at := now })
        Order.pickup_code (fun _ => rfl) db.orders]
      exact h
  | updateStatus oid cid status nid now =>
    cases hres : update_order_status db oid cid status nid now with
    | error e => simpa [applyOp, hres] using h
    | ok pr =>
      obtain ⟨db2, o2⟩ := pr
      obtain ⟨_, hord, _⟩ := update_order_status_inv hres
      simp only [applyOp, hres]
      rw [hord, map_modifyFirst_of_preserve
        (fun x => x.order_id == oid && x.customer_id == cid)
        (fun x => { x with status := status, updated_at := now })
        Order.pickup_code (fun _ => rfl) db.orders]
      exact h
  | createBag bag bid notifIds =>
    cases hres : create_surprise_bag db bag bid notifIds with
    | error e => simpa [applyOp, hres] using h
    | ok pr =>
      obtain ⟨db2, nb⟩ := pr
      obtain ⟨_, hord, _⟩ := create_surprise_bag_inv hres
      simp only [applyOp, hres]
      rw [hord]
      exact h
  | updateBag bag_id bid upd =>
    cases hres : update_surprise_bag db bag_id bid upd with
    | error e => simpa [applyOp, hres] using h
    | ok pr =>
      obtain ⟨db2, b2⟩ := pr
      obtain ⟨_, hord, _⟩ := update_surprise_bag_inv hres
      simp only [applyOp, hres]
      rw [hord]
      exact h
  | deleteBag bag_id bid =>
    cases hres : delete_surprise_bag db bag_id bid with
    | error e => simpa [applyOp, hres] using h
    | ok db2 =>
      obtain ⟨_, hord, _⟩ := delete_surprise_bag_inv hres
      simp only [applyOp, hres]
      rw [hord]
      exact h

theorem pickupCodes_nodup_foldl (ops : List Op) : ∀ db : DB,
    (db.orders.map Order.pickup_code).Nodup →
    ((ops.foldl applyOp db).orders.map Order.pickup_code).Nodup := by
  induction ops with
  | nil => exact fun db h => h
  | cons op rest ih =>
    intro db h
    exact ih _ (pickupCodes_nodup_applyOp db op h)

/-- C3: starting from a store whose pickup codes are pairwise distinct,
they remain pairwise distinct after any sequence of workflow operations
(orders are never hard-deleted, only flipped to `cancelled`, so the
collision check ranges over every order ever created); moreover the code of
each newly created order differs from the code of every existing order. -/
theorem pickup_codes_unique (db : DB) (ops : List Op)
    (h : (db.orders.map Order.pickup_code).Nodup) :
    ((ops.foldl applyOp db).orders.map Order.pickup_code).Nodup ∧
    ∀ req cid gen fuel oid nid now db2 ord,
      create_order db req cid gen fuel oid nid now =
        some (Except.ok (db2, ord)) →
      ord.pickup_code ∉ db.orders.map Order.pickup_code := by
  refine ⟨pickupCodes_nodup_foldl ops db h, ?_⟩
  intro req cid gen fuel oid nid now db2 ord hres
  exact (create_order_inv hres).2.2.2.2.2.1

/-- Concrete instance of `pickup_codes_unique`: from `dbW6` (one existing
order with code "c1"), place an order whose generator first collides with
"c1" and then yields "c2". -/
theorem pickup_codes_unique_witness :
    ((([Op.cancelOrder "o1" 3 "n1" 9,
        Op.placeOrder ⟨1, 5⟩ 4 (fun i => if i == 0 then "c1" else "c2") 5 "o2" "n2" 10] :
      List Op).foldl applyOp dbW6).orders.map Order.pickup_code).Nodup ∧
    ∀ req cid gen fuel oid nid now db2 ord,
      create_order dbW6 req cid gen fuel oid nid now =
        some (Except.ok (db2, ord)) →
      ord.pickup_code ∉ dbW6.orders.map Order.pickup_code :=
  pickup_codes_unique dbW6 _ (by decide)

/-! ### C4: the pickup-code retry loop is NOT bounded -/

theorem findFreshCode_none_of_collision {gen : Nat → String} {used : List String}
    (hcol : ∀ i, gen i ∈ used) : ∀ i fuel, findFreshCode gen used i fuel = none := by
  intro i fuel
  induction fuel generalizing i with
  | zero => rfl
  | succ n ih =>
    rw [findFreshCode, if_pos (by simpa using hcol i)]
    exact ih (i + 1)

def dbC4 : DB := {
  users := []
  business_owners := [⟨5, "Shop", true⟩]
  bags := [{
    id := 1
    business_id := 5
    title := "Bag"
    description := "d"
    original_price := 10
    discount_price := 5
    quantity_available := 5
    quantity_sold := 0
    pickup_start := 0
    pickup_end := 10
    is_active := true }]
  orders := [{
    order_id := "o1"
    customer_id := 3
    bag_id := 1
    total_price := 5
    status := OrderStatus.pending
    created_at := 0
    updated_at := 0
    pickup_code := "c0" }]
  notifications := [] }

/-- C4 is false of the code: the `while` collision loop in `create_order`
has no retry bound and no conflict error.  Against a generator whose every
candidate collides with the existing code "c0", the loop has still not
terminated after `fuel` iterations, for every `fuel` — the modelled call
yields `none` (nontermination) instead of ever surfacing an error. -/
theorem pickup_code_loop_unbounded (fuel : Nat) :
    create_order dbC4 ⟨1, 5⟩ 7 (fun _ => "c0") fuel "o2" "n2" 0 = none := by
  have hg : get_surprise_bag dbC4 (1 : Nat) = some (dbC4.bags.get ⟨0, by decide⟩) :=
    by decide
  have hcol : ∀ i : Nat, (fun _ : Nat => "c0") i ∈
      List.map Order.pickup_code dbC4.orders := by
    intro i
    show "c0" ∈ List.map Order.pickup_code dbC4.orders
    decide
  simp only [create_order, hg]
  rw [if_neg (by decide), if_neg (by decide),
    findFreshCode_none_of_collision hcol 0 fuel]

/-! ### C2: the inventory invariant over operation sequences -/

/-- Number of `pending` orders on the listing with id `bag_id`. -/
def pendingCount (db : DB) (bag_id : Nat) : Nat :=
  db.orders.countP (fun o => o.bag_id == bag_id && o.status == OrderStatus.pending)

/-- The spec's invariant: `0 ≤ quantity_sold ≤ quantity_available`. -/
def QuantityInv (db : DB) : Prop :=
  ∀ b ∈ db.bags, 0 ≤ b.quantity_sold ∧ b.quantity_sold ≤ b.quantity_available

instance (db : DB) : Decidable (QuantityInv db) := by
  unfold QuantityInv; infer_instance

/-- Inductive strengthening of `QuantityInv` that actually holds in states
reachable by the safe operations: listing ids are unique, every order points
at an existing listing, and each listing has at least as many sold units as
it has pending orders. -/
def ReachInv (db : DB) : Prop :=
  (db.bags.map SurpriseBag.id).Nodup ∧
  (∀ o ∈ db.orders, ∃ b ∈ db.bags, b.id = o.bag_id) ∧
  ∀ b ∈ db.bags, 0 ≤ b.quantity_sold ∧ b.quantity_sold ≤ b.quantity_available ∧
    (pendingCount db b.id : Int) ≤ b.quantity_sold

instance (db : DB) : Decidable (ReachInv db) := by
  unfold ReachInv; infer_instance

/-- The operations under which the inventory invariant is actually
preserved: everything except `update_surprise_bag` (which performs no
validation at all, cf. C10) and `update_order_status` (which can move a
`cancelled` order back to `pending`, enabling a second cancellation of the
same capacity unit). -/
def Op.isInventorySafe : Op → Bool
  | .updateBag _ _ _ => false
  | .updateStatus _ _ _ _ _ => false
  | _ => true

/-- The pydantic field validation performed at the request boundary before
the service layer runs. -/
def Op.Validated : Op → Prop
  | .createBag bag _ _ => bag.Validated
  | _ => True

instance (op : Op) : Decidable op.Validated := by
  cases op <;> simp only [Op.Validated] <;> infer_instance

/-- C2 is false as stated, in two ways.  First, from the valid state
`dbC10` the single listing-update operation `updC10` — accepted by the code,
cf. C10 — leaves `quantity_sold = 2` above `quantity_available = 1`.
Second, from the valid state `dbW6` the claim's own operations
cancel / updateStatus-back-to-pending / cancel drive `quantity_sold`
to `-1 < 0`. -/
theorem quantity_invariant_counterexample :
    (ReachInv dbC10 ∧ QuantityInv dbC10 ∧
      ¬ QuantityInv (([Op.updateBag 1 5 updC10] : List Op).foldl applyOp dbC10)) ∧
    (ReachInv dbW6 ∧ QuantityInv dbW6 ∧
      ¬ QuantityInv (([Op.cancelOrder "o1" 3 "nA" 9,
          Op.updateStatus "o1" 3 OrderStatus.pending "nB" 10,
          Op.cancelOrder "o1" 3 "nC" 11] : List Op).foldl applyOp dbW6)) := by
  refine ⟨⟨by decide, by decide, by decide⟩, ⟨by decide, by decide, by decide⟩⟩

/-! Auxiliary list lemmas for the preservation proof. -/

theorem mem_modifyFirst {p : α → Bool} {f : α → α} {l : List α} {x : α}
    (hx : x ∈ modifyFirst p f l) : ∃ a ∈ l, x = a ∨ x = f a := by
  induction l with
  | nil => simp [modifyFirst] at hx
  | cons b t ih =>
    by_cases hb : p b
    · rw [modifyFirst, if_pos hb] at hx
      rcases List.mem_cons.mp hx with rfl | hx
      · exact ⟨b, List.mem_cons_self b t, Or.inr rfl⟩
      · exact ⟨x, List.mem_cons_of_mem b hx, Or.inl rfl⟩
    · rw [modifyFirst, if_neg hb] at hx
      rcases List.mem_cons.mp hx with rfl | hx
      · exact ⟨x, List.mem_cons_self x t, Or.inl rfl⟩
      · obtain ⟨a, ha, hor⟩ := ih hx
        exact ⟨a, List.mem_cons_of_mem b ha, hor⟩

theorem le_foldr_max {l : List Nat} {x : Nat} (hx : x ∈ l) :
    x ≤ l.foldr max 0 := by
  induction l with
  | nil => simp at hx
  | cons b t ih =>
    rcases List.mem_cons.mp hx with rfl | hx
    · exact le_max_left _ _
    · exact le_trans (ih hx) (le_max_right _ _)

theorem ref_transfer {bags2 bags1 : List SurpriseBag}
    (hmap : bags2.map SurpriseBag.id = bags1.map SurpriseBag.id)
    {bid : Nat} (h : ∃ b ∈ bags1, b.id = bid) : ∃ b ∈ bags2, b.id = bid := by
  obtain ⟨b, hb, rfl⟩ := h
  have hmem : b.id ∈ bags2.map SurpriseBag.id := by
    rw [hmap]
    exact List.mem_map_of_mem _ hb
  obtain ⟨b2, hb2, hid⟩ := List.mem_map.mp hmem
  exact ⟨b2, hb2, hid⟩

theorem id_ne_of_nodup_decomp {l₁ l₂ : List SurpriseBag} {b0 x : SurpriseBag}
    (hnd : ((l₁ ++ b0 :: l₂).map SurpriseBag.id).Nodup) (hx : x ∈ l₂) :
    x.id ≠ b0.id := by
  rw [List.map_append, List.map_cons] at hnd
  have h2 := hnd.of_append_right
  intro he
  exact (List.nodup_cons.mp h2).1 (he ▸ List.mem_map_of_mem _ hx)

theorem countP_modifyFirst_eq {p q : α → Bool} {f : α → α} {l : List α} {a : α}
    (hfind : l.find? p = some a) (hq : q a = q (f a)) :
    (modifyFirst p f l).countP q = l.countP q := by
  obtain ⟨l₁, l₂, hl, _, hm⟩ := modifyFirst_decomp f hfind
  rw [hm, hl]
  simp [List.countP_append, List.countP_cons, hq]

theorem countP_modifyFirst_sub {p q : α → Bool} {f : α → α} {l : List α} {a : α}
    (hfind : l.find? p = some a) (hqa : q a = true) (hqfa : q (f a) = false) :
    (modifyFirst p f l).countP q + 1 = l.countP q := by
  obtain ⟨l₁, l₂, hl, _, hm⟩ := modifyFirst_decomp f hfind
  rw [hm, hl]
  simp [List.countP_append, List.countP_cons, hqa, hqfa]
  omega

theorem reachInv_deleteBag {db : DB} {bag_id business_id : Nat} {db2 : DB}
    (hinv : ReachInv db)
    (h : delete_surprise_bag db bag_id business_id = Except.ok db2) :
    ReachInv db2 := by
  obtain ⟨hbags, hords, _⟩ := delete_surprise_bag_inv h
  obtain ⟨hnd, href, hqty⟩ := hinv
  have hmap : db2.bags.map SurpriseBag.id = db.bags.map SurpriseBag.id := by
    rw [hbags]
    exact map_modifyFirst_of_preserve
      (fun b => b.id == bag_id && b.business_id == business_id)
      (fun b => { b with is_active := false })
      SurpriseBag.id (fun _ => rfl) db.bags
  have hpc : ∀ bid, pendingCount db2 bid = pendingCount db bid := by
    intro bid
    unfold pendingCount
    rw [hords]
  refine ⟨by rw [hmap]; exact hnd, ?_, ?_⟩
  · intro o ho
    rw [hords] at ho
    exact ref_transfer hmap (href o ho)
  · intro b2 hb2
    rw [hbags] at hb2
    obtain ⟨a, ha, hor⟩ := mem_modifyFirst hb2
    obtain ⟨h1, h2, h3⟩ := hqty a ha
    rcases hor with h4 | h4
    · rw [h4, hpc]
      exact ⟨h1, h2, h3⟩
    · rw [h4]
      exact ⟨h1, h2, by rw [hpc]; exact h3⟩

theorem reachInv_createBag {db : DB} {bag : SurpriseBagCreate}
    {business_id : Nat} {notifIds : Nat → String} {db2 : DB} {nb : SurpriseBag}
    (hinv : ReachInv db) (hval : bag.Validated)
    (h : create_surprise_bag db bag business_id notifIds = Except.ok (db2, nb)) :
    ReachInv db2 := by
  obtain ⟨hbags, hords, _, hid, hqs, hqa⟩ := create_surprise_bag_inv h
  obtain ⟨hnd, href, hqty⟩ := hinv
  have hfresh : nb.id ∉ db.bags.map SurpriseBag.id := by
    rw [hid]
    intro hmem
    have hle := le_foldr_max hmem
    have heq : nextBagId db = (db.bags.map SurpriseBag.id).foldr max 0 + 1 := rfl
    omega
  have hpc : ∀ bid, pendingCount db2 bid = pendingCount db bid := by
    intro bid
    unfold pendingCount
    rw [hords]
  refine ⟨?_, ?_, ?_⟩
  · rw [hbags, List.map_append]
    refine List.Nodup.append hnd (by simp) ?_
    intro x hx hx2
    rw [List.map_singleton, List.mem_singleton] at hx2
    exact hfresh (hx2 ▸ hx)
  · intro o ho
    rw [hords] at ho
    obtain ⟨b, hb, hbid⟩ := href o ho
    exact ⟨b, by rw [hbags]; exact List.mem_append_left _ hb, hbid⟩
  · intro b2 hb2
    rw [hbags] at hb2
    rcases List.mem_append.mp hb2 with hb2 | hb2
    · obtain ⟨h1, h2, h3⟩ := hqty b2 hb2
      exact ⟨h1, h2, by rw [hpc]; exact h3⟩
    · rw [List.mem_singleton] at hb2
      subst hb2
      refine ⟨by simp [hqs], by rw [hqs, hqa]; exact hval.2.2, ?_⟩
      have hzero : pendingCount db b2.id = 0 := by
        apply List.countP_eq_zero.mpr
        intro o ho hq
        obtain ⟨b, hb, hbid⟩ := href o ho
        simp only [Bool.and_eq_true, beq_iff_eq] at hq
        exact hfresh (by rw [← hq.1, ← hbid]; exact List.mem_map_of_mem _ hb)
      rw [hpc, hzero, hqs]
      simp

theorem reachInv_placeOrder {db : DB} {req : OrderCreate} {cid : Nat}
    {gen : Nat → String} {fuel : Nat} {oid nid : String} {now : Int}
    {db2 : DB} {ord : Order} (hinv : ReachInv db)
    (h : create_order db req cid gen fuel oid nid now =
      some (Except.ok (db2, ord))) :
    ReachInv db2 := by
  obtain ⟨hbags, hords, _, hobag, hostat, _, b0, hg, hcap⟩ := create_order_inv h
  obtain ⟨hnd, href, hqty⟩ := hinv
  have hg' : db.bags.find? (fun x => x.id == req.bag_id) = some b0 := hg
  have hb0id : b0.id = req.bag_id := by simpa using List.find?_some hg'
  have hmap : db2.bags.map SurpriseBag.id = db.bags.map SurpriseBag.id := by
    rw [hbags]
    exact map_modifyFirst_of_preserve (fun x => x.id == req.bag_id)
      (fun x => { x with quantity_sold := x.quantity_sold + 1 })
      SurpriseBag.id (fun _ => rfl) db.bags
  have hpc : ∀ bid, pendingCount db2 bid = pendingCount db bid +
      if (ord.bag_id == bid && ord.status == OrderStatus.pending) then 1 else 0 := by
    intro bid
    unfold pendingCount
    rw [hords, List.countP_append]
    simp [List.countP_cons]
  have hsame : ∀ b2 ∈ db.bags, b2.id ≠ req.bag_id →
      0 ≤ b2.quantity_sold ∧ b2.quantity_sold ≤ b2.quantity_available ∧
      (pendingCount db2 b2.id : Int) ≤ b2.quantity_sold := by
    intro b2 hb2 hne
    obtain ⟨h1, h2, h3⟩ := hqty b2 hb2
    refine ⟨h1, h2, ?_⟩
    have hfalse : (ord.bag_id == b2.id && ord.status == OrderStatus.pending)
        = false := by
      have hb : (ord.bag_id == b2.id) = false := by
        rw [hobag]
        exact beq_eq_false_iff_ne.mpr (Ne.symm hne)
      rw [hb, Bool.false_and]
    rw [hpc b2.id, hfalse]
    simpa using h3
  obtain ⟨l₁, l₂, hl, hl₁, hm⟩ := modifyFirst_decomp
    (fun x => { x with quantity_sold := x.quantity_sold + 1 }) hg'
  refine ⟨by rw [hmap]; exact hnd, ?_, ?_⟩
  · intro o ho
    rw [hords] at ho
    rcases List.mem_append.mp ho with ho | ho
    · exact ref_transfer hmap (href o ho)
    · rw [List.mem_singleton] at ho
      subst ho
      rw [hobag]
      exact ref_transfer hmap ⟨b0, List.mem_of_find?_eq_some hg', hb0id⟩
  · intro b2 hb2
    rw [hbags, hm] at hb2
    rcases List.mem_append.mp hb2 with hmem | hmem
    · refine hsame b2 (by rw [hl]; exact List.mem_append_left _ hmem) ?_
      have := hl₁ b2 hmem
      simpa using this
    · rcases List.mem_cons.mp hmem with h4 | hmem
      · subst h4
        obtain ⟨h1, h2, h3⟩ := hqty b0
          (by rw [hl]; exact List.mem_append_right _ (List.mem_cons_self _ _))
        refine ⟨?_, ?_, ?_⟩
        · show 0 ≤ b0.quantity_sold + 1
          omega
        · show b0.quantity_sold + 1 ≤ b0.quantity_available
          omega
        · show (pendingCount db2 b0.id : Int) ≤ b0.quantity_sold + 1
          have htrue : (ord.bag_id == b0.id && ord.status == OrderStatus.pending)
              = true := by
            rw [hobag, hostat]
            simp [hb0id]
          rw [hpc b0.id, htrue]
          simp only [if_true]
          push_cast
          omega
      · refine hsame b2
          (by rw [hl]; exact List.mem_append_right _ (List.mem_cons_of_mem _ hmem)) ?_
        rw [← hb0id]
        exact id_ne_of_nodup_decomp (hl ▸ hnd) hmem

theorem reachInv_cancelOrder {db : DB} {order_id : String} {cid : Nat}
    {nid : String} {now : Int} {db2 : DB} (hinv : ReachInv db)
    (h : delete_order db order_id cid nid now = Except.ok db2) :
    ReachInv db2 := by
  obtain ⟨o, hfind, hpend, hbags, hords, _⟩ := delete_order_inv h
  obtain ⟨hnd, href, hqty⟩ := hinv
  have hmap : db2.bags.map SurpriseBag.id = db.bags.map SurpriseBag.id := by
    rw [hbags]
    exact map_modifyFirst_of_preserve (fun x => x.id == o.bag_id)
      (fun x => { x with quantity_sold := x.quantity_sold - 1 })
      SurpriseBag.id (fun _ => rfl) db.bags
  have hpc_ne : ∀ bid, o.bag_id ≠ bid →
      pendingCount db2 bid = pendingCount db bid := by
    intro bid hne
    unfold pendingCount
    rw [hords]
    refine countP_modifyFirst_eq hfind ?_
    have hb : (o.bag_id == bid) = false := beq_eq_false_iff_ne.mpr hne
    simp [hb]
  have hpc_eq : pendingCount db2 o.bag_id + 1 = pendingCount db o.bag_id := by
    unfold pendingCount
    rw [hords]
    refine countP_modifyFirst_sub hfind ?_ ?_
    · simp [hpend]
    · simp
  have hpos : 0 < pendingCount db o.bag_id := by
    refine List.countP_pos_iff.mpr ⟨o, List.mem_of_find?_eq_some hfind, ?_⟩
    simp [hpend]
  refine ⟨by rw [hmap]; exact hnd, ?_, ?_⟩
  · intro o2 ho2
    rw [hords] at ho2
    obtain ⟨o1, ho1, hor⟩ := mem_modifyFirst ho2
    have hbid : o2.bag_id = o1.bag_id := by
      rcases hor with h4 | h4 <;> rw [h4]
    rw [hbid]
    exact ref_transfer hmap (href o1 ho1)
  · have hsame : ∀ b2 ∈ db.bags, b2.id ≠ o.bag_id →
        0 ≤ b2.quantity_sold ∧ b2.quantity_sold ≤ b2.quantity_available ∧
        (pendingCount db2 b2.id : Int) ≤ b2.quantity_sold := by
      intro b2 hb2 hne
      obtain ⟨h1, h2, h3⟩ := hqty b2 hb2
      refine ⟨h1, h2, ?_⟩
      rw [hpc_ne b2.id (fun he => hne he.symm)]
      exact h3
    intro b2 hb2
    rw [hbags] at hb2
    cases hfb : db.bags.find? (fun x => x.id == o.bag_id) with
    | none =>
      rw [modifyFirst_of_find?_eq_none _ hfb] at hb2
      have hne : b2.id ≠ o.bag_id := by
        have := List.find?_eq_none.mp hfb b2 hb2
        simpa using this
      exact hsame b2 hb2 hne
    | some b0 =>
      have hb0id : b0.id = o.bag_id := by simpa using List.find?_some hfb
      obtain ⟨l₁, l₂, hl, hl₁, hm⟩ := modifyFirst_decomp
        (fun x => { x with quantity_sold := x.quantity_sold - 1 }) hfb
      rw [hm] at hb2
      rcases List.mem_append.mp hb2 with hmem | hmem
      · refine hsame b2 (by rw [hl]; exact List.mem_append_left _ hmem) ?_
        have := hl₁ b2 hmem
        simpa using this
      · rcases List.mem_cons.mp hmem with h4 | hmem
        · subst h4
          obtain ⟨h1, h2, h3⟩ := hqty b0
            (by rw [hl]; exact List.mem_append_right _ (List.mem_cons_self _ _))
          rw [hb0id] at h3
          refine ⟨?_, ?_, ?_⟩
          · show 0 ≤ b0.quantity_sold - 1
            omega
          · show b0.quantity_sold - 1 ≤ b0.quantity_available
            omega
          · show (pendingCount db2 b0.id : Int) ≤ b0.quantity_sold - 1
            rw [hb0id]
            omega
        · refine hsame b2
            (by rw [hl]; exact List.mem_append_right _ (List.mem_cons_of_mem _ hmem)) ?_
          rw [← hb0id]
          exact id_ne_of_nodup_decomp (hl ▸ hnd) hmem

theorem reachInv_applyOp (db : DB) (op : Op) (hinv : ReachInv db)
    (hsafe : op.isInventorySafe = true) (hval : op.Validated) :
    ReachInv (applyOp db op) := by
  cases op with
  | placeOrder req cid gen fuel oid nid now =>
    cases hres : create_order db req cid gen fuel oid nid now with
    | none => simpa [applyOp, hres] using hinv
    | some res =>
      cases res with
      | error e => simpa [applyOp, hres] using hinv
      | ok pr =>
        obtain ⟨db2, ord⟩ := pr
        simpa [applyOp, hres] using reachInv_placeOrder hinv hres
  | cancelOrder oid cid nid now =>
    cases hres : delete_order db oid cid nid now with
    | error e => simpa [applyOp, hres] using hinv
    | ok db2 => simpa [applyOp, hres] using reachInv_cancelOrder hinv hres
  | updateStatus oid cid status nid now => simp [Op.isInventorySafe] at hsafe
  | createBag bag bid notifIds =>
    cases hres : create_surprise_bag db bag bid notifIds with
    | error e => simpa [applyOp, hres] using hinv
    | ok pr =>
      obtain ⟨db2, nb⟩ := pr
      simpa [applyOp, hres] using reachInv_createBag hinv hval hres
  | updateBag bag_id bid upd => simp [Op.isInventorySafe] at hsafe
  | deleteBag bag_id bid =>
    cases hres : delete_surprise_bag db bag_id bid with
    | error e => simpa [applyOp, hres] using hinv
    | ok db2 => simpa [applyOp, hres] using reachInv_deleteBag hinv hres

theorem reachInv_foldl (ops : List Op) : ∀ db : DB, ReachInv db →
    (∀ op ∈ ops, op.isInventorySafe = true) → (∀ op ∈ ops, op.Validated) →
    ReachInv (ops.foldl applyOp db) := by
  induction ops with
  | nil => exact fun db h _ _ => h
  | cons op rest ih =>
    intro db h hsafe hval
    exact ih _ (reachInv_applyOp db op h (hsafe op (List.mem_cons_self _ _))
        (hval op (List.mem_cons_self _ _)))
      (fun o ho => hsafe o (List.mem_cons_of_mem _ ho))
      (fun o ho => hval o (List.mem_cons_of_mem _ ho))

/-- C2 (amended): `0 ≤ quantity_sold ≤ quantity_available` holds after every
sequence of placeOrder / cancelOrder / createListing (validated request) /
deleteListing operations from a state satisfying the reachable-state
invariant (ids unique, orders reference existing listings, pending orders
per listing ≤ quantity_sold).  The two excluded operations break it:
`update_surprise_bag` can set `quantity_available` below `quantity_sold`
(see the counterexample and C10), and `update_order_status` can reset a
cancelled order to `pending`, letting a second cancel drive `quantity_sold`
below the pending-order count and then below 0. -/
theorem quantity_invariant_sequences (db : DB) (ops : List Op)
    (hinv : ReachInv db)
    (hsafe : ∀ op ∈ ops, op.isInventorySafe = true)
    (hval : ∀ op ∈ ops, op.Validated) :
    QuantityInv (ops.foldl applyOp db) := by
  have h := reachInv_foldl ops db hinv hsafe hval
  intro b hb
  exact ⟨(h.2.2 b hb).1, (h.2.2 b hb).2.1⟩

def goodBagW2 : SurpriseBagCreate := {
  title := "t2"
  description := "d2"
  original_price := 10
  discount_price := 5
  quantity_available := 2
  pickup_start := 0
  pickup_end := 10 }

/-- Concrete instance of `quantity_invariant_sequences`: cancel the pending
order of `dbW6`, place a new order, create a listing, soft-delete it. -/
theorem quantity_invariant_sequences_witness :
    QuantityInv (([Op.cancelOrder "o1" 3 "n1" 9,
        Op.placeOrder ⟨1, 5⟩ 4 (fun _ => "c9") 1 "o9" "n9" 10,
        Op.createBag goodBagW2 5 (fun _ => "nb"),
        Op.deleteBag 2 5] : List Op).foldl applyOp dbW6) :=
  quantity_invariant_sequences dbW6 _ (by decide) (by decide) (by decide)

end TGTG
